import Mathlib

set_option linter.unusedVariables false

/-!
Verification of the first-passage-time core of the perpetual-swaps
liquidation repository.  The Python floating-point arithmetic is embedded
over the reals; `np.log`, `np.sqrt`, `np.exp`, `np.pi` become `Real.log`,
`Real.sqrt`, `Real.exp`, `Real.pi`.  `scipy.stats.norm.ppf` (the standard
normal inverse CDF) has no closed form and is kept abstract as a function
argument `normPpf`.
-/

namespace PerpSwap

/-- Embedding of `expected_liquidation_time` from
`src/expected_time_to_liquidation.py` (lines 12-36):
net drift `mu = drift - funding`, `liquidation_distance = 1/leverage`,
`denominator = mu + 0.5*volatility**2`; if `denominator <= 0` return
`365 / (leverage * volatility**2)`, else return
`-log(1 - liquidation_distance) / denominator * 365`. -/
noncomputable def expected_liquidation_time
    (leverage volatility drift funding : ℝ) : ℝ :=
  let mu := drift - funding
  let liquidation_distance := 1 / leverage
  let denominator := mu + 0.5 * volatility ^ 2
  if denominator ≤ 0 then
    365 / (leverage * volatility ^ 2)
  else
    -Real.log (1 - liquidation_distance) / denominator * 365

/-- The barrier distance `b = -log(1 - 1/leverage)` (log-space distance from
entry price to liquidation price), as computed in
`src/funding_comparison.py` line 23. -/
noncomputable def barrier_distance (leverage : ℝ) : ℝ :=
  -Real.log (1 - 1 / leverage)

/-- Embedding of `median_liquidation_time` from `src/funding_comparison.py`
(lines 11-41): `net_drift = drift - funding`, `b = -log(1 - 1/leverage)`;
if `net_drift < -volatility**2` return `b / |net_drift| * 365`, else return
`b / (|net_drift| + volatility**2 * sqrt(2/pi)) * 365`. -/
noncomputable def median_liquidation_time
    (leverage volatility drift funding : ℝ) : ℝ :=
  let net_drift := drift - funding
  let liquidation_distance := 1 / leverage
  let b := -Real.log (1 - liquidation_distance)
  if net_drift < -volatility ^ 2 then
    b / |net_drift| * 365
  else
    let adjustment := Real.sqrt (2 / Real.pi)
    let effective_drift := |net_drift| + volatility ^ 2 * adjustment
    b / effective_drift * 365

/-- Embedding of `percentile_liquidation_time` from
`src/funding_comparison.py` (lines 43-70).  `normPpf` abstracts
`scipy.stats.norm.ppf`.  `mu_param` is `b / (net_drift + 0.5*vol^2)` when
that denominator is positive, else the fallback `100`, then capped by
`min(mu_param, 100)`; `lambda_param = b^2 / vol^2`.  For `percentile = 0.5`
the function delegates to `median_liquidation_time`; otherwise it returns
`max(0.1, min(mu*(1 + z*sqrt(mu/lambda))*365, 10000))` with
`z = normPpf percentile`. -/
noncomputable def percentile_liquidation_time
    (normPpf : ℝ → ℝ)
    (leverage volatility drift funding percentile : ℝ) : ℝ :=
  let net_drift := drift - funding
  let liquidation_distance := 1 / leverage
  let b := -Real.log (1 - liquidation_distance)
  let mu_param₀ :=
    if 0 < net_drift + 0.5 * volatility ^ 2 then
      b / (net_drift + 0.5 * volatility ^ 2)
    else 100
  let lambda_param := b ^ 2 / volatility ^ 2
  let mu_param := min mu_param₀ 100
  if percentile = 0.5 then
    median_liquidation_time leverage volatility drift funding
  else
    let z := normPpf percentile
    let percentile_time := mu_param * (1 + z * Real.sqrt (mu_param / lambda_param))
    max 0.1 (min (percentile_time * 365) 10000)

/-- C1: for every leverage > 1, volatility > 0, drift and funding,
`expected_liquidation_time` computes `denom = (drift - funding) + 0.5*vol^2`
and returns `365/(leverage*vol^2)` when `denom ≤ 0`, and otherwise
`-log(1 - 1/leverage)/denom * 365`, the branch switching exactly at
`denom ≤ 0`. -/
theorem expected_liquidation_time_spec
    (leverage volatility drift funding : ℝ)
    (hl : 1 < leverage) (hv : 0 < volatility) :
    ((drift - funding) + 0.5 * volatility ^ 2 ≤ 0 →
      expected_liquidation_time leverage volatility drift funding =
        365 / (leverage * volatility ^ 2)) ∧
    (0 < (drift - funding) + 0.5 * volatility ^ 2 →
      expected_liquidation_time leverage volatility drift funding =
        -Real.log (1 - 1 / leverage) /
          ((drift - funding) + 0.5 * volatility ^ 2) * 365) := by
  constructor
  · intro h
    simp only [expected_liquidation_time]
    rw [if_pos h]
  · intro h
    simp only [expected_liquidation_time]
    rw [if_neg (not_le.mpr h)]

/-- Witness for C1 at leverage 2, volatility 1, zero drift and funding:
the denominator is 0.5 > 0 and the general branch applies. -/
theorem expected_liquidation_time_spec_witness :
    expected_liquidation_time 2 1 0 0 =
      -Real.log (1 - 1 / 2) / ((0 - 0) + 0.5 * 1 ^ 2) * 365 :=
  (expected_liquidation_time_spec 2 1 0 0 (by norm_num) (by norm_num)).2
    (by norm_num)

/-- The bound `Real.log 2 ≤ 1`, from `log x ≤ x - 1`. -/
theorem log_two_le_one : Real.log 2 ≤ 1 := by
  have h := Real.log_le_sub_one_of_pos (by norm_num : (0:ℝ) < 2)
  linarith

/-- Evaluation of the mean formula at leverage 2 and the invalid volatility
-1: the general branch applies (denominator 0.5 > 0) and the result is the
ordinary real number `730 * log 2`. -/
theorem expected_at_neg_vol :
    expected_liquidation_time 2 (-1) 0 0 = 730 * Real.log 2 := by
  simp only [expected_liquidation_time]
  rw [if_neg (by norm_num)]
  have h2 : (1:ℝ) - 1 / 2 = 2⁻¹ := by norm_num
  rw [h2, Real.log_inv]
  ring

/-- C2 counterexample: at leverage 2 and volatility −1 ≤ 0 the mean
operation does not fail — it returns the positive number `730·log 2`;
there is no validation or `InvalidParameter` path in the source. -/
theorem no_validation_counterexample :
    0 < expected_liquidation_time 2 (-1) 0 0 := by
  rw [expected_at_neg_vol]
  have := Real.log_pos (by norm_num : (1:ℝ) < 2)
  positivity

/-- C2 amended: none of the three core operations validates its
parameters; each computes an ordinary numeric result from its formula even
at invalid inputs (volatility −1 ≤ 0 for all three, and percentile 2
outside (0,1) for the percentile operation). -/
theorem no_parameter_validation :
    expected_liquidation_time 2 (-1) 0 0 = 730 * Real.log 2 ∧
    median_liquidation_time 2 (-1) 0 0 =
      Real.log 2 / Real.sqrt (2 / Real.pi) * 365 ∧
    percentile_liquidation_time (fun _ => 0) 2 (-1) 0 0 2 =
      730 * Real.log 2 := by
  have hlogpos : 0 < Real.log 2 := Real.log_pos (by norm_num)
  refine ⟨expected_at_neg_vol, ?_, ?_⟩
  · simp only [median_liquidation_time]
    rw [if_neg (by norm_num)]
    have h2 : (1:ℝ) - 1 / 2 = 2⁻¹ := by norm_num
    rw [h2, Real.log_inv]
    norm_num
  · simp only [percentile_liquidation_time]
    rw [if_neg (by norm_num : (2:ℝ) ≠ 0.5)]
    rw [if_pos (by norm_num : (0:ℝ) < 0 - 0 + 0.5 * (-1) ^ 2)]
    have h2 : (1:ℝ) - 1 / 2 = 2⁻¹ := by norm_num
    rw [h2, Real.log_inv]
    have hq : - -Real.log 2 / ((0:ℝ) - 0 + 0.5 * (-1) ^ 2) =
        2 * Real.log 2 := by
      norm_num
      ring
    rw [hq]
    have hmin : min (2 * Real.log 2) 100 = 2 * Real.log 2 :=
      min_eq_left (by linarith [log_two_le_one])
    rw [hmin]
    have hval : 2 * Real.log 2 * (1 + 0 * Real.sqrt
        (2 * Real.log 2 / ((- -Real.log 2) ^ 2 / (-1) ^ 2))) * 365 =
        730 * Real.log 2 := by ring
    rw [hval]
    have hub : (730:ℝ) * Real.log 2 ≤ 10000 := by linarith [log_two_le_one]
    have hlb : (0.1:ℝ) ≤ 730 * Real.log 2 := by
      linarith [Real.log_two_gt_d9]
    rw [min_eq_left hub, max_eq_right hlb]

/-- C3 counterexample: the barrier distance is not increasing in leverage —
at the higher leverage 10 it is strictly smaller than at leverage 2. -/
theorem barrier_distance_not_increasing :
    (2:ℝ) < 10 ∧ barrier_distance 10 < barrier_distance 2 := by
  refine ⟨by norm_num, ?_⟩
  simp only [barrier_distance]
  have h : Real.log (1 - 1 / 2) < Real.log (1 - 1 / 10) :=
    Real.log_lt_log (by norm_num) (by norm_num)
  linarith

/-- C3 amended: with volatility, drift and funding fixed, increasing
leverage strictly DECREASES the barrier distance `b = -log(1 - 1/leverage)`
and, in the `denom > 0` regime, strictly decreases
`expected_liquidation_time`. -/
theorem leverage_monotonicity (v d f l₁ l₂ : ℝ)
    (hv : 0 < v) (h1 : 1 < l₁) (h12 : l₁ < l₂) :
    barrier_distance l₂ < barrier_distance l₁ ∧
    (0 < (d - f) + 0.5 * v ^ 2 →
      expected_liquidation_time l₂ v d f <
        expected_liquidation_time l₁ v d f) := by
  have hl₁ : 0 < l₁ := by linarith
  have hd1 : 1 / l₁ < 1 := (div_lt_one hl₁).mpr h1
  have hd2 : 1 / l₂ < 1 / l₁ := one_div_lt_one_div_of_lt hl₁ h12
  have hpos : 0 < 1 - 1 / l₁ := by linarith
  have hlt : 1 - 1 / l₁ < 1 - 1 / l₂ := by linarith
  have hlog : Real.log (1 - 1 / l₁) < Real.log (1 - 1 / l₂) :=
    Real.log_lt_log hpos hlt
  constructor
  · simp only [barrier_distance]
    linarith
  · intro hden
    simp only [expected_liquidation_time]
    rw [if_neg (not_le.mpr hden), if_neg (not_le.mpr hden)]
    have hnum : -Real.log (1 - 1 / l₂) < -Real.log (1 - 1 / l₁) := by
      linarith
    exact mul_lt_mul_of_pos_right
      ((div_lt_div_iff_of_pos_right hden).mpr hnum) (by norm_num)

/-- Witness for C3's amended theorem at volatility 1, zero drift and
funding, leverages 2 < 10. -/
theorem leverage_monotonicity_witness :
    barrier_distance 10 < barrier_distance 2 ∧
    ((0:ℝ) < (0 - 0) + 0.5 * 1 ^ 2 →
      expected_liquidation_time 10 1 0 0 <
        expected_liquidation_time 2 1 0 0) :=
  leverage_monotonicity 1 0 0 2 10 (by norm_num) (by norm_num) (by norm_num)

/-- C4: for leverage > 1 and volatility > 0, `median_liquidation_time`
returns `b/|net_drift| * 365` when `net_drift < -vol^2` and otherwise
`b/(|net_drift| + vol^2 * sqrt(2/pi)) * 365`, with
`b = -log(1 - 1/leverage)` and `net_drift = drift - funding`. -/
theorem median_liquidation_time_spec
    (leverage volatility drift funding : ℝ)
    (hl : 1 < leverage) (hv : 0 < volatility) :
    (drift - funding < -volatility ^ 2 →
      median_liquidation_time leverage volatility drift funding =
        -Real.log (1 - 1 / leverage) / |drift - funding| * 365) ∧
    (-volatility ^ 2 ≤ drift - funding →
      median_liquidation_time leverage volatility drift funding =
        -Real.log (1 - 1 / leverage) /
          (|drift - funding| + volatility ^ 2 * Real.sqrt (2 / Real.pi))
          * 365) := by
  constructor
  · intro h
    simp only [median_liquidation_time]
    rw [if_pos h]
  · intro h
    simp only [median_liquidation_time]
    rw [if_neg (not_lt.mpr h)]

/-- Witness for C4 at leverage 2, volatility 1, zero drift and funding:
net drift 0 ≥ −1, so the general sqrt(2/π) branch applies. -/
theorem median_liquidation_time_spec_witness :
    median_liquidation_time 2 1 0 0 =
      -Real.log (1 - 1 / 2) /
        (|(0:ℝ) - 0| + 1 ^ 2 * Real.sqrt (2 / Real.pi)) * 365 :=
  (median_liquidation_time_spec 2 1 0 0 (by norm_num) (by norm_num)).2
    (by norm_num)

/-- C5: at percentile 0.5 the percentile operation delegates exactly to
`median_liquidation_time` — the two embedded functions return the very
same value for every valid input and every inverse-CDF function. -/
theorem percentile_half_eq_median (normPpf : ℝ → ℝ)
    (leverage volatility drift funding : ℝ)
    (hl : 1 < leverage) (hv : 0 < volatility) :
    percentile_liquidation_time normPpf leverage volatility drift funding 0.5
      = median_liquidation_time leverage volatility drift funding := by
  simp [percentile_liquidation_time]

/-- Witness for C5 at leverage 2, volatility 1, zero drift and funding. -/
theorem percentile_half_eq_median_witness :
    percentile_liquidation_time (fun _ => 0) 2 1 0 0 0.5 =
      median_liquidation_time 2 1 0 0 :=
  percentile_half_eq_median (fun _ => 0) 2 1 0 0 (by norm_num) (by norm_num)

/-- C6: for any percentile in (0,1) other than 0.5, the percentile
operation computes `mu_param = b/(net_drift + 0.5·vol²)` when that
denominator is positive and 100 otherwise, caps it at 100, sets
`lambda_param = b²/vol²`, takes `z = normPpf percentile`, and returns
`mu·(1 + z·sqrt(mu/lambda))·365` clamped into [0.1, 10000]. -/
theorem percentile_liquidation_time_spec (normPpf : ℝ → ℝ)
    (leverage volatility drift funding percentile : ℝ)
    (hl : 1 < leverage) (hv : 0 < volatility)
    (hp0 : 0 < percentile) (hp1 : percentile < 1)
    (hp : percentile ≠ 0.5) :
    percentile_liquidation_time normPpf leverage volatility drift funding
        percentile =
      max 0.1 (min
        (min (if 0 < (drift - funding) + 0.5 * volatility ^ 2 then
            barrier_distance leverage /
              ((drift - funding) + 0.5 * volatility ^ 2)
          else 100) 100 *
          (1 + normPpf percentile * Real.sqrt
            (min (if 0 < (drift - funding) + 0.5 * volatility ^ 2 then
                barrier_distance leverage /
                  ((drift - funding) + 0.5 * volatility ^ 2)
              else 100) 100 /
              (barrier_distance leverage ^ 2 / volatility ^ 2))) * 365)
        10000) := by
  simp only [percentile_liquidation_time, barrier_distance]
  rw [if_neg hp]

/-- Witness for C6 at leverage 2, volatility 1, zero drift and funding,
percentile 0.25 and the constant-zero inverse CDF. -/
theorem percentile_liquidation_time_spec_witness :
    percentile_liquidation_time (fun _ => 0) 2 1 0 0 0.25 =
      max 0.1 (min
        (min (if 0 < ((0:ℝ) - 0) + 0.5 * 1 ^ 2 then
            barrier_distance 2 / (((0:ℝ) - 0) + 0.5 * 1 ^ 2)
          else 100) 100 *
          (1 + (fun _ => (0:ℝ)) 0.25 * Real.sqrt
            (min (if 0 < ((0:ℝ) - 0) + 0.5 * 1 ^ 2 then
                barrier_distance 2 / (((0:ℝ) - 0) + 0.5 * 1 ^ 2)
              else 100) 100 /
              (barrier_distance 2 ^ 2 / 1 ^ 2))) * 365)
        10000) :=
  percentile_liquidation_time_spec (fun _ => 0) 2 1 0 0 0.25
    (by norm_num) (by norm_num) (by norm_num) (by norm_num) (by norm_num)

/-- C10: in the no-branch-switch regime `0 ≤ x ≤ vol²`, the median
estimate ignores the sign of the net drift: net drift `+x` (drift = x,
funding = 0) and net drift `−x` (drift = 0, funding = x) give exactly the
same median, because the general branch uses `|net_drift|`. -/
theorem median_ignores_drift_sign (leverage volatility x : ℝ)
    (hl : 1 < leverage) (hv : 0 < volatility)
    (hx0 : 0 ≤ x) (hx : x ≤ volatility ^ 2) :
    median_liquidation_time leverage volatility x 0 =
      median_liquidation_time leverage volatility 0 x := by
  simp only [median_liquidation_time]
  have hv2 : 0 ≤ volatility ^ 2 := sq_nonneg volatility
  rw [if_neg (by intro h; nlinarith), if_neg (by intro h; nlinarith)]
  rw [sub_zero, zero_sub, abs_neg]

/-- Witness for C10 at leverage 2, volatility 1, x = 1 (the boundary
x = vol² included in the regime). -/
theorem median_ignores_drift_sign_witness :
    median_liquidation_time 2 1 1 0 = median_liquidation_time 2 1 0 1 :=
  median_ignores_drift_sign 2 1 1 (by norm_num) (by norm_num)
    (by norm_num) (by norm_num)

/-!
Embedding of the Monte Carlo simulation loop of
`src/perpetual_swap_liquidation_paths.py` (lines 25-60).  `np.random.seed`
followed by sequential `np.random.normal` calls makes the seeded generator
a fixed stream of standard-normal draws; the stream is embedded as
`g : ℕ → ℝ`, and path `i` consumes draws `nSteps*i + t` for
`t = 0, …, nSteps-1` (all draws of path 0, then all draws of path 1, …),
exactly the order in which the loop calls the generator.  The script's
top-level constants (`initial_price`, `leverage`, `n_paths`, `n_steps`,
`dt`, `volatility`, `drift`) become arguments.
-/

/-- Log-return increment of path `i` at step `t`:
`np.random.normal(drift * dt, volatility * np.sqrt(dt), n_steps)` (line 32)
gives `drift*dt + volatility*sqrt(dt) * z` for the next standard draw `z`,
which for path `i`, step `t` is draw number `nSteps*i + t`. -/
noncomputable def path_return (g : ℕ → ℝ) (drift volatility dt : ℝ)
    (nSteps i t : ℕ) : ℝ :=
  drift * dt + volatility * Real.sqrt dt * g (nSteps * i + t)

/-- Price of path `i` at index `j` of the `nSteps+1`-entry path
`np.insert(initial_price * np.exp(np.cumsum(returns)), 0, initial_price)`
(lines 33-34): the initial price at index 0, and
`initial * exp(sum of the first j returns)` at index `j ≥ 1`. -/
noncomputable def price_path (g : ℕ → ℝ) (initial drift volatility dt : ℝ)
    (nSteps i j : ℕ) : ℝ :=
  if j = 0 then initial
  else initial *
    Real.exp (∑ t ∈ Finset.range j, path_return g drift volatility dt nSteps i t)

/-- `liquidation_price = initial_price * (1 - 1/leverage)` (line 17). -/
noncomputable def liquidation_price (initial leverage : ℝ) : ℝ :=
  initial * (1 - 1 / leverage)

/-- The set of indices of path `i` at or below the liquidation price:
`np.where(price_path <= liquidation_price)[0]` (line 37). -/
noncomputable def liquidation_idx (g : ℕ → ℝ)
    (initial leverage drift volatility dt : ℝ) (nSteps i : ℕ) : Finset ℕ :=
  (Finset.range (nSteps + 1)).filter
    (fun j => price_path g initial drift volatility dt nSteps i j ≤
      liquidation_price initial leverage)

/-- Whether path `i` was liquidated: `len(liquidation_idx) > 0`
(line 39). -/
noncomputable def is_liquidated (g : ℕ → ℝ)
    (initial leverage drift volatility dt : ℝ) (nSteps i : ℕ) : Prop :=
  (liquidation_idx g initial leverage drift volatility dt nSteps i).Nonempty

noncomputable instance (g : ℕ → ℝ) (initial leverage drift volatility dt : ℝ)
    (nSteps i : ℕ) :
    Decidable (is_liquidated g initial leverage drift volatility dt nSteps i) :=
  Finset.decidableNonempty

/-- Recorded liquidation time of path `i` (lines 41-48): the first crossing
index `liquidation_idx[0]` when the path was liquidated, else `n_steps`. -/
noncomputable def liquidation_time (g : ℕ → ℝ)
    (initial leverage drift volatility dt : ℝ) (nSteps i : ℕ) : ℕ :=
  if h : (liquidation_idx g initial leverage drift volatility dt nSteps i).Nonempty
  then (liquidation_idx g initial leverage drift volatility dt nSteps i).min' h
  else nSteps

/-- `n_liquidated = np.sum(liquidated)` (line 58): the number of
liquidated paths among `0, …, nPaths-1`. -/
noncomputable def n_liquidated (g : ℕ → ℝ)
    (initial leverage drift volatility dt : ℝ) (nPaths nSteps : ℕ) : ℕ :=
  ((Finset.range nPaths).filter
    (fun i => is_liquidated g initial leverage drift volatility dt nSteps i)).card

/-- `avg_liquidation_time = np.mean(liquidation_times[liquidated]) if
n_liquidated > 0 else n_steps` (line 60). -/
noncomputable def avg_liquidation_time (g : ℕ → ℝ)
    (initial leverage drift volatility dt : ℝ) (nPaths nSteps : ℕ) : ℝ :=
  if 0 < n_liquidated g initial leverage drift volatility dt nPaths nSteps then
    (∑ i ∈ (Finset.range nPaths).filter
        (fun i => is_liquidated g initial leverage drift volatility dt nSteps i),
      (liquidation_time g initial leverage drift volatility dt nSteps i : ℝ)) /
    (n_liquidated g initial leverage drift volatility dt nPaths nSteps : ℝ)
  else (nSteps : ℝ)

/-- C7: the simulation is deterministic in the seed and consumes the draws
in the fixed order path 0's steps, then path 1's steps, … — two draw
streams that agree on the first `nPaths * nSteps` draws (as two runs from
the same seed do) give every path identical per-index price values and an
identical recorded absorption step index. -/
theorem simulation_deterministic (g₁ g₂ : ℕ → ℝ)
    (initial leverage drift volatility dt : ℝ) (nPaths nSteps : ℕ)
    (hg : ∀ k, k < nPaths * nSteps → g₁ k = g₂ k)
    (i : ℕ) (hi : i < nPaths) :
    (∀ j, j ≤ nSteps →
      price_path g₁ initial drift volatility dt nSteps i j =
        price_path g₂ initial drift volatility dt nSteps i j) ∧
    liquidation_time g₁ initial leverage drift volatility dt nSteps i =
      liquidation_time g₂ initial leverage drift volatility dt nSteps i := by
  have hprice : ∀ j, j ≤ nSteps →
      price_path g₁ initial drift volatility dt nSteps i j =
        price_path g₂ initial drift volatility dt nSteps i j := by
    intro j hj
    simp only [price_path]
    by_cases h0 : j = 0
    · rw [if_pos h0, if_pos h0]
    · rw [if_neg h0, if_neg h0]
      congr 2
      refine Finset.sum_congr rfl fun t ht => ?_
      simp only [path_return]
      congr 1
      congr 1
      apply hg
      have ht' : t < j := Finset.mem_range.mp ht
      calc nSteps * i + t < nSteps * i + nSteps := by
            have : t < nSteps := lt_of_lt_of_le ht' hj
            omega
        _ = nSteps * (i + 1) := by ring
        _ ≤ nSteps * nPaths := Nat.mul_le_mul_left _ (by omega)
        _ = nPaths * nSteps := Nat.mul_comm _ _
  refine ⟨hprice, ?_⟩
  have hset : liquidation_idx g₁ initial leverage drift volatility dt nSteps i =
      liquidation_idx g₂ initial leverage drift volatility dt nSteps i := by
    simp only [liquidation_idx]
    refine Finset.filter_congr fun j hj => ?_
    rw [hprice j (by have := Finset.mem_range.mp hj; omega)]
  simp only [liquidation_time, hset]

/-- Witness for C7 at streams agreeing on the single consumed draw
(nPaths = nSteps = 1, path 0) but differing beyond it. -/
theorem simulation_deterministic_witness :
    (∀ j, j ≤ 1 →
      price_path (fun _ => 0) 100 0 (1/2) (1/365) 1 0 j =
        price_path (fun k => if k < 1 then 0 else 1) 100 0 (1/2) (1/365) 1 0 j) ∧
    liquidation_time (fun _ => 0) 100 10 0 (1/2) (1/365) 1 0 =
      liquidation_time (fun k => if k < 1 then 0 else 1) 100 10 0 (1/2) (1/365) 1 0 :=
  simulation_deterministic (fun _ => 0) (fun k => if k < 1 then 0 else 1)
    100 10 0 (1/2) (1/365) 1 1
    (by intro k hk; interval_cases k; norm_num) 0 (by norm_num)

/-- C9: with the script's step size `dt = 1/365`, if no path of the batch
is liquidated then `avg_liquidation_time` equals the full simulated
horizon in days, `nSteps * dt * 365` (not zero or undefined); if at least
one path is liquidated it equals the arithmetic mean (sum over liquidated
paths divided by their count) of the liquidated paths' recorded times. -/
theorem avg_liquidation_time_spec (g : ℕ → ℝ)
    (initial leverage drift volatility : ℝ) (nPaths nSteps : ℕ) :
    ((∀ i, i < nPaths →
        ¬ is_liquidated g initial leverage drift volatility (1/365) nSteps i) →
      avg_liquidation_time g initial leverage drift volatility (1/365)
          nPaths nSteps = (nSteps : ℝ) * (1/365) * 365) ∧
    (0 < n_liquidated g initial leverage drift volatility (1/365) nPaths nSteps →
      avg_liquidation_time g initial leverage drift volatility (1/365)
          nPaths nSteps =
        (∑ i ∈ (Finset.range nPaths).filter
            (fun i => is_liquidated g initial leverage drift volatility (1/365) nSteps i),
          (liquidation_time g initial leverage drift volatility (1/365) nSteps i : ℝ)) /
        (n_liquidated g initial leverage drift volatility (1/365) nPaths nSteps : ℝ)) := by
  constructor
  · intro hno
    have hfilter : (Finset.range nPaths).filter
        (fun i => is_liquidated g initial leverage drift volatility (1/365) nSteps i) = ∅ := by
      rw [Finset.filter_eq_empty_iff]
      intro i hi
      exact hno i (Finset.mem_range.mp hi)
    have hn : n_liquidated g initial leverage drift volatility (1/365) nPaths nSteps = 0 := by
      rw [n_liquidated, hfilter, Finset.card_empty]
    rw [avg_liquidation_time, if_neg (by rw [hn]; exact lt_irrefl 0)]
    ring
  · intro hpos
    rw [avg_liquidation_time, if_pos hpos]

/-- Witness for C9: one path of one step whose constant draws keep the
price at 100, above the liquidation price 90 — no liquidation, and the
average equals the one-step horizon in days. -/
theorem avg_liquidation_time_spec_witness :
    avg_liquidation_time (fun _ => 0) 100 10 0 0 (1/365) 1 1 =
      ((1:ℕ) : ℝ) * (1/365) * 365 := by
  refine (avg_liquidation_time_spec (fun _ => 0) 100 10 0 0 1 1).1 ?_
  intro i hi
  intro hliq
  obtain ⟨j, hj⟩ := hliq
  rw [liquidation_idx, Finset.mem_filter] at hj
  obtain ⟨hjr, hle⟩ := hj
  rw [price_path, liquidation_price] at hle
  by_cases h0 : j = 0
  · rw [if_pos h0] at hle
    norm_num at hle
  · rw [if_neg h0] at hle
    simp only [path_return, mul_zero, zero_mul, add_zero, zero_add,
      Finset.sum_const_zero, Real.exp_zero, mul_one] at hle
    norm_num at hle

/-!
Floating-point refinement of the liquidation detection of
`src/perpetual_swap_liquidation_paths.py` (lines 37-48).  The real-number
embedding above has no non-finite values, so for the non-finite-sample
behaviour the path samples are modelled at the IEEE-754 level: a sample is
either a finite value (carried exactly as a rational), positive infinity
(the overflow value of `np.exp`), or NaN.  `np.exp` never produces
negative infinity, so it is not modelled.  The comparison
`price_path <= liquidation_price` follows IEEE semantics: any comparison
involving NaN is false, and `+inf <= c` is false for finite `c`.
-/

/-- A numpy float sample of a simulated path: finite (with its exact
value), positive infinity, or NaN. -/
inductive NpFloat : Type
  | fin (x : ℚ)
  | posInf
  | nan
deriving DecidableEq, Repr

/-- Whether a sample is a finite float. -/
def NpFloat.isFinite : NpFloat → Bool
  | .fin _ => true
  | .posInf => false
  | .nan => false

/-- IEEE evaluation of `sample <= liq` for a finite liquidation price
`liq`, as computed elementwise by `price_path <= liquidation_price`
(line 37): false whenever the sample is NaN or `+inf`. -/
def npLe (s : NpFloat) (liq : ℚ) : Bool :=
  match s with
  | .fin x => decide (x ≤ liq)
  | .posInf => false
  | .nan => false

/-- Index of the first path sample comparing `<=` the liquidation price —
`np.where(price_path <= liquidation_price)[0]` followed by taking its
first element (lines 37-41) — or `none` when no sample compares true. -/
def first_crossing (liq : ℚ) : List NpFloat → Option ℕ
  | [] => none
  | s :: rest =>
    if npLe s liq then some 0
    else (first_crossing liq rest).map (· + 1)

/-- The per-path record of the loop (lines 39-48): `(true, index)` when a
crossing was found, `(false, nSteps)` when the path survived. -/
def liq_record (liq : ℚ) (path : List NpFloat) (nSteps : ℕ) : Bool × ℕ :=
  match first_crossing liq path with
  | some j => (true, j)
  | none => (false, nSteps)

/-- C8 counterexample: a path whose sample at step 1 is NaN (non-finite)
with the other samples above the barrier is recorded as having survived
the whole horizon, `(false, nSteps)` — not as a liquidation at step 1 as
the claim requires. -/
theorem nonfinite_sample_not_liquidated :
    NpFloat.isFinite NpFloat.nan = false ∧
    liq_record 90 [NpFloat.fin 100, NpFloat.nan, NpFloat.fin 110] 2 =
      (false, 2) := by
  constructor
  · rfl
  · decide

/-- C8 amended: a non-finite sample (NaN or `+inf`, the only non-finite
values `np.exp` can produce) is never recorded as a liquidation: its IEEE
comparison against the barrier is false, so any recorded crossing index
holds a finite sample at or below the liquidation price; a degenerate path
is simply recorded as surviving, and no failure is propagated (the record
is total). -/
theorem crossing_sample_is_finite (liq : ℚ) (path : List NpFloat) (j : ℕ)
    (h : first_crossing liq path = some j) :
    ∃ x : ℚ, path.get? j = some (NpFloat.fin x) ∧ x ≤ liq := by
  induction path generalizing j with
  | nil => simp [first_crossing] at h
  | cons s rest ih =>
    rw [first_crossing] at h
    by_cases hs : npLe s liq
    · rw [if_pos hs] at h
      cases h
      cases s with
      | fin x =>
        refine ⟨x, rfl, ?_⟩
        simpa [npLe] using hs
      | posInf => simp [npLe] at hs
      | nan => simp [npLe] at hs
    · rw [if_neg hs] at h
      cases hrec : first_crossing liq rest with
      | none => rw [hrec] at h; simp at h
      | some k =>
        rw [hrec] at h
        rw [Option.map_some'] at h
        rw [Option.some.injEq] at h
        obtain ⟨x, hx, hxle⟩ := ih k hrec
        refine ⟨x, ?_, hxle⟩
        rw [← h]
        exact hx

/-- Witness for C8's amended theorem: the crossing recorded at index 0 of
the one-sample path `[80]` with barrier 90 holds the finite value 80. -/
theorem crossing_sample_is_finite_witness :
    ∃ x : ℚ, ([NpFloat.fin 80] : List NpFloat).get? 0 =
      some (NpFloat.fin x) ∧ x ≤ 90 :=
  crossing_sample_is_finite 90 [NpFloat.fin 80] 0 (by decide)

end PerpSwap
